import Mathlib

/-!
Verification development for the qudi spectroscopy plugin repository.

Shallow embedding of the hardware drivers and logic modules that the checked
claims are about:
 - the TimeHarp260 photon-timing driver (hardware/timeharp/timeharp260.py),
 - the Shamrock vendor-DLL spectrometer driver (hardware/spectrometer/shamrock.py),
 - the basic spectrum-acquisition logic (logic/shamrock_logic.py),
 - the advanced spectrum logic (logic/spectrum_logic.py),
 - the two confocal scanner interfuses (logic/interfuse/),
 - the persisted status-variable store (modelled from the specification).

Python floats are modelled as rationals, vendor devices as explicit state
records, and side effects (log messages, vendor-DLL calls) as explicit effect
lists returned next to the new state.
-/

/- ================================================================
   TimeHarp260 driver, method initialize (timeharp260.py lines 271-292).
   ================================================================ -/

/-- Effect of one call of the TimeHarp260 method that initializes the device:
either an error log entry, or the vendor call TH260_Initialize(deviceID, mode). -/
inductive THEffect where
  | logError
  | vendorInit (deviceID : Int) (mode : Int)
  deriving DecidableEq, Repr

/-- Constant MODE_HIST = 0 from TimeHarp260, set in the method that fixes the
device constants (timeharp260.py line 163). -/
def MODE_HIST : Int := 0

/-- Constant MODE_T2 = 2 (timeharp260.py line 164). -/
def MODE_T2 : Int := 2

/-- Constant MODE_T3 = 3 (timeharp260.py line 165). -/
def MODE_T3 : Int := 3

/-- Model of TimeHarp260 method that initializes the device (timeharp260.py
lines 271-292).  The source reads, after mode = int(mode):

    if not ((mode != self.MODE_HIST) or (mode != self.MODE_T2) or
            (mode != self.MODE_T3)):
        self.log.error(...)
    else:
        self.check(self._dll.TH260_Initialize(self._deviceID, mode))

The condition is transcribed verbatim; the declaration_mode field update
(self._mode = mode) does not affect which branch runs and is omitted since the
claims are about the branch taken. -/
def th260Init (deviceID : Int) (mode : Int) : List THEffect :=
  if ¬ ((mode ≠ MODE_HIST) ∨ (mode ≠ MODE_T2) ∨ (mode ≠ MODE_T3)) then
    [THEffect.logError]
  else
    [THEffect.vendorInit deviceID mode]

/-- Condition the documentation of the method states: the mode is one of the
three legal values 0 (histogramming), 2 (T2), 3 (T3). -/
def legalTHMode (mode : Int) : Prop :=
  mode = MODE_HIST ∨ mode = MODE_T2 ∨ mode = MODE_T3

/- ================================================================
   Shamrock vendor-DLL driver (hardware/spectrometer/shamrock.py).
   ================================================================ -/

/-- Model of the vendor-side state of the Shamrock spectrometer that the
claims touch.  The vendor stores, per flipper mirror index (1 = input,
2 = output, as used by set_input_port / set_output_port), whether the flipper
is present and which port position it reports, and it stores the grating
number last programmed by ShamrockSetGrating. -/
structure ShamrockDevice where
  flipper1Present : Bool
  flipper2Present : Bool
  flipper1Pos : Int
  flipper2Pos : Int
  grating : Int
  deriving DecidableEq, Repr

/-- Vendor calls issued by the modelled Shamrock driver methods. -/
inductive ShCall where
  | flipperMirrorIsPresent (flipper : Int)
  | getFlipperMirror (flipper : Int)
  | setGrating (grating : Int)
  | getGrating
  deriving DecidableEq, Repr

/-- Value reported by the vendor call ShamrockFlipperMirrorIsPresent for a
flipper index (1 if present, 0 if not); shamrock.py lines 377-380 wrap this
call and return the reported value. -/
def shFlipperMirrorIsPresent (dev : ShamrockDevice) (flipper : Int) : Int :=
  if (if flipper = 1 then dev.flipper1Present else dev.flipper2Present) then 1 else 0

/-- Model of the Shamrock method get_input_port (shamrock.py lines 309-319).
The source gates on self.shamrock_flipper_mirror_is_present(2) == 1 (note the
literal flipper index 2) and, when that holds, issues
ShamrockGetFlipperMirror(self.deviceID, 1, ...) and returns its value;
otherwise it returns 0 with no ShamrockGetFlipperMirror call.  The returned
pair is (value, list of vendor calls issued). -/
def shGetInputPort (dev : ShamrockDevice) : Int × List ShCall :=
  if shFlipperMirrorIsPresent dev 2 = 1 then
    (dev.flipper1Pos, [ShCall.flipperMirrorIsPresent 2, ShCall.getFlipperMirror 1])
  else
    (0, [ShCall.flipperMirrorIsPresent 2])

/-- Model of the Shamrock method get_output_port (shamrock.py lines 321-331):
gates on self.shamrock_flipper_mirror_is_present(2) == 1 and, when that holds,
issues ShamrockGetFlipperMirror(self.deviceID, 2, ...). -/
def shGetOutputPort (dev : ShamrockDevice) : Int × List ShCall :=
  if shFlipperMirrorIsPresent dev 2 = 1 then
    (dev.flipper2Pos, [ShCall.flipperMirrorIsPresent 2, ShCall.getFlipperMirror 2])
  else
    (0, [ShCall.flipperMirrorIsPresent 2])

/-- Model of the Shamrock method get_grating (shamrock.py lines 121-128):
reads the vendor-stored grating number and returns it minus 1. -/
def shGetGrating (dev : ShamrockDevice) : Int :=
  dev.grating - 1

/-- Model of the Shamrock method set_grating (shamrock.py lines 130-141) for
an int argument (the only case in which the vendor call is made): forwards
the argument to ShamrockSetGrating unchanged. -/
def shSetGrating (dev : ShamrockDevice) (grating : Int) : ShamrockDevice :=
  { dev with grating := grating }

/-- Concrete device state refuting claim C4: the input flipper (index 1) is
present, the output flipper (index 2) is absent, and the vendor would report
port 1 for the input flipper. -/
def c4Device : ShamrockDevice :=
  { flipper1Present := true
    flipper2Present := false
    flipper1Pos := 1
    flipper2Pos := 0
    grating := 2 }

/-- C4 counterexample: in the state c4Device the flipper mirror corresponding
to the queried input port (flipper index 1) is present, yet get_input_port
returns 0 and never issues the vendor ShamrockGetFlipperMirror call, because
the source checks the presence of flipper index 2 in both getters.  This
refutes the claim that get_input_port returns the vendor-reported port value
whenever its own flipper is present. -/
theorem C4_flipper_gate_counterexample :
    c4Device.flipper1Present = true ∧
    (shGetInputPort c4Device).1 = 0 ∧
    (shGetInputPort c4Device).2 = [ShCall.flipperMirrorIsPresent 2] ∧
    ShCall.getFlipperMirror 1 ∉ (shGetInputPort c4Device).2 := by
  refine ⟨rfl, ?_, ?_, ?_⟩ <;> decide

/-- C4 amended: both get_input_port and get_output_port gate on the presence
of flipper index 2 (the output flipper).  When flipper 2 is reported absent,
each getter returns 0 without attempting the vendor ShamrockGetFlipperMirror
call; when flipper 2 is present, each getter returns the vendor-reported
position of its own flipper (index 1 for input, index 2 for output) through
that vendor call. -/
theorem C4_flipper_gate_amended (dev : ShamrockDevice) :
    (dev.flipper2Present = false →
      shGetInputPort dev = (0, [ShCall.flipperMirrorIsPresent 2]) ∧
      shGetOutputPort dev = (0, [ShCall.flipperMirrorIsPresent 2])) ∧
    (dev.flipper2Present = true →
      shGetInputPort dev =
        (dev.flipper1Pos, [ShCall.flipperMirrorIsPresent 2, ShCall.getFlipperMirror 1]) ∧
      shGetOutputPort dev =
        (dev.flipper2Pos, [ShCall.flipperMirrorIsPresent 2, ShCall.getFlipperMirror 2])) := by
  constructor
  · intro h
    constructor <;> simp [shGetInputPort, shGetOutputPort, shFlipperMirrorIsPresent, h]
  · intro h
    constructor <;> simp [shGetInputPort, shGetOutputPort, shFlipperMirrorIsPresent, h]

/-- C4 witness: the amended theorem applied at two concrete devices, one with
the output flipper absent and one with it present. -/
theorem C4_flipper_gate_witness :
    shGetInputPort c4Device = (0, [ShCall.flipperMirrorIsPresent 2]) ∧
    shGetOutputPort { c4Device with flipper2Present := true } =
      (0, [ShCall.flipperMirrorIsPresent 2, ShCall.getFlipperMirror 2]) :=
  ⟨((C4_flipper_gate_amended c4Device).1 rfl).1,
   ((C4_flipper_gate_amended { c4Device with flipper2Present := true }).2 rfl).2⟩

/-- C10: modelling the vendor as storing the last set grating number, the
sequence set_grating(k); get_grating() returns k - 1 for every int k, and
set_grating(get_grating()) decrements the stored selection by one instead of
being an identity round trip, because get_grating subtracts 1 from the
vendor-reported number while set_grating forwards its argument unchanged. -/
theorem C10_grating_offby_one (dev : ShamrockDevice) (k : Int) :
    shGetGrating (shSetGrating dev k) = k - 1 ∧
    (shSetGrating dev (shGetGrating dev)).grating = dev.grating - 1 := by
  constructor <;> simp [shGetGrating, shSetGrating]

/-- C2: the mode guard of the TimeHarp260 device-init method is vacuous.  The
source intends to reject any mode other than 0, 2, 3 before the vendor call,
but the condition not((mode != 0) or (mode != 2) or (mode != 3)) is false for
every mode, so the vendor call TH260_Initialize is issued even for the illegal
mode 1 (and in general for every mode), with no error logged. -/
theorem C2_mode_guard_vacuous :
    th260Init 0 1 = [THEffect.vendorInit 0 1] ∧
    ¬ legalTHMode 1 ∧
    (∀ deviceID mode, th260Init deviceID mode = [THEffect.vendorInit deviceID mode]) := by
  refine ⟨by decide, ?_, ?_⟩
  · unfold legalTHMode MODE_HIST MODE_T2 MODE_T3
    omega
  · intro deviceID mode
    have h : (mode ≠ MODE_HIST) ∨ (mode ≠ MODE_T2) ∨ (mode ≠ MODE_T3) := by
      unfold MODE_HIST MODE_T2 MODE_T3
      omega
    unfold th260Init
    rw [if_neg (not_not_intro h)]

/- ================================================================
   Basic spectrum-acquisition logic (logic/shamrock_logic.py),
   center_wavelength setter (lines 136-149).
   ================================================================ -/

/-- Python runtime type of a value, as tested by the type(x) is T idiom. -/
inductive PyType where
  | float
  | int
  | str
  deriving DecidableEq, Repr

/-- Python value passed to a setter: an int, a float or a string. -/
inductive PyVal where
  | int (n : Int)
  | float (q : Rat)
  | str (s : String)
  deriving DecidableEq, Repr

/-- Runtime type of a Python value. -/
def PyVal.typeOf : PyVal → PyType
  | PyVal.int _ => PyType.int
  | PyVal.float _ => PyType.float
  | PyVal.str _ => PyType.str

/-- Numeric content of a Python value (float(x) for the numeric cases). -/
def PyVal.toRat : PyVal → Rat
  | PyVal.int n => (n : Rat)
  | PyVal.float q => q
  | PyVal.str _ => 0

/-- Python expression (A or B) where A and B are class objects: a class object
is always truthy, so the expression evaluates to its first operand.  The
source line 138 of shamrock_logic.py writes type(wavelength) is (float or int),
which therefore tests only against float. -/
def pyClassOr (a _b : PyType) : PyType := a

/-- State of the basic spectrum logic that the center_wavelength setter
touches: the cached attribute self._center_wavelength.  The attribute is never
assigned during activation (on_activate binds a local variable instead), which
the model records as an Option. -/
structure ShamrockLogicState where
  centerWavelengthAttr : Option Rat
  deriving DecidableEq, Repr

/-- Effects of the center_wavelength setter: an info log, a debug
(validation) log, or the driver call set_central_wavelength(w). -/
inductive ShLogEffect where
  | logInfo
  | logDebug
  | setCentralWavelength (w : Rat)
  deriving DecidableEq, Repr

/-- Outcome of a Python call that may fail with AttributeError (reading the
never-initialized cached attribute). -/
inductive PyOutcome (α : Type) where
  | ok (a : α)
  | attributeError
  deriving DecidableEq, Repr

/-- Model of the ShamrockLogic center_wavelength setter (shamrock_logic.py
lines 136-149):

    parameter_correct = type(wavelength) is (float or int)
    if parameter_correct and wavelength != self._center_wavelength:
        self.spectrometer_device.set_central_wavelength(float(wavelength))
        self.log.info(...)
        self._center_wavelength = wavelength
        return 1
    else:
        if not parameter_correct: self.log.debug(...)
        else: self.log.debug(...)
        return 0

The and short-circuits, so the cached attribute is only read when the type
test passed.  Result: new state, effect list, returned int. -/
def shamrockCenterWavelengthSet (s : ShamrockLogicState) (wavelength : PyVal) :
    PyOutcome (ShamrockLogicState × List ShLogEffect × Int) :=
  let parameter_correct := wavelength.typeOf = pyClassOr PyType.float PyType.int
  if parameter_correct then
    match s.centerWavelengthAttr with
    | none => PyOutcome.attributeError
    | some c =>
      if wavelength.toRat ≠ c then
        PyOutcome.ok ({ centerWavelengthAttr := some wavelength.toRat },
                      [ShLogEffect.setCentralWavelength wavelength.toRat, ShLogEffect.logInfo], 1)
      else
        PyOutcome.ok (s, [ShLogEffect.logDebug], 0)
  else
    PyOutcome.ok (s, [ShLogEffect.logDebug], 0)

/-- C6: an int wavelength (500, differing from the cached 600) is NOT
committed: because (float or int) evaluates to float, the type test
type(wavelength) is (float or int) fails for ints, so the setter takes the
validation-log path, returns 0, issues no driver call and leaves the cache
unchanged.  This contradicts the claim that int values are accepted and only
non-numeric parameters are rejected; the debug message of the source itself
says the parameter must be an integer or a float. -/
theorem C6_int_wavelength_rejected :
    shamrockCenterWavelengthSet ⟨some 600⟩ (PyVal.int 500) =
      PyOutcome.ok (⟨some 600⟩, [ShLogEffect.logDebug], 0) ∧
    (PyVal.int 500).typeOf = PyType.int ∧
    (PyVal.int 500).toRat ≠ (600 : Rat) ∧
    shamrockCenterWavelengthSet ⟨some 600⟩ (PyVal.float 500) =
      PyOutcome.ok (⟨some 500⟩,
        [ShLogEffect.setCentralWavelength 500, ShLogEffect.logInfo], 1) := by
  refine ⟨by decide, rfl, by decide, by decide⟩

/- ================================================================
   Persisted status variables of SpectrumLogic (logic/spectrum_logic.py
   lines 69-70) and the per-key persistent store.
   ================================================================ -/

/-- Value held by one cell of the persistent status-variable store: either a
spectrum array or a scalar (the wavelength-calibration offset). -/
inductive SVValue where
  | arr (rows : List (List Rat))
  | num (q : Rat)
  deriving DecidableEq, Repr

/-- Modelled from the spec: the persistent status-variable store of the host
framework (core.statusvariable, not under src/) is keyed by module plus
variable name; within one module it maps a declared name to at most one
value.  The store for one module is a partial map from key strings to
values. -/
def SVStore : Type := String → Option SVValue

/-- Modelled from the spec: writing one status variable replaces the cell of
its key. -/
def svWrite (st : SVStore) (key : String) (v : SVValue) : SVStore :=
  fun k => if k = key then some v else st k

/-- Key string of the StatusVar declaration of _acquired_data
(spectrum_logic.py line 69). -/
def acquiredDataKey : String := "wavelength_calibration"

/-- Key string of the StatusVar declaration of _wavelength_calibration
(spectrum_logic.py line 70). -/
def wavelengthCalibrationKey : String := "wavelength_calibration"

/-- Modelled from the spec: on deactivation each declared status variable is
written to the store under its declared key, in declaration order
(_acquired_data on line 69 before _wavelength_calibration on line 70). -/
def persistSpectrumLogicVars (st : SVStore) (acquiredData : List (List Rat))
    (wavelengthCalibration : Rat) : SVStore :=
  svWrite (svWrite st acquiredDataKey (SVValue.arr acquiredData))
    wavelengthCalibrationKey (SVValue.num wavelengthCalibration)

/-- Modelled from the spec: on reactivation the value restored into
_acquired_data is the cell of its declared key. -/
def restoreAcquiredData (st : SVStore) : Option SVValue :=
  st acquiredDataKey

/-- Modelled from the spec: on reactivation the value restored into
_wavelength_calibration is the cell of its declared key. -/
def restoreWavelengthCalibration (st : SVStore) : Option SVValue :=
  st wavelengthCalibrationKey

/-- C9: the two StatusVar declarations of lines 69-70 use the same key, so
both fields share one store cell: after persisting, both restores read the
same cell, that cell holds the wavelength calibration (written second, in
declaration order), and the acquired-data array written first has been
overwritten and cannot be restored. -/
theorem C9_shared_statusvar_key (st : SVStore) (a : List (List Rat)) (w : Rat) :
    acquiredDataKey = wavelengthCalibrationKey ∧
    restoreAcquiredData (persistSpectrumLogicVars st a w) =
      restoreWavelengthCalibration (persistSpectrumLogicVars st a w) ∧
    restoreAcquiredData (persistSpectrumLogicVars st a w) = some (SVValue.num w) ∧
    restoreAcquiredData (persistSpectrumLogicVars st a w) ≠ some (SVValue.arr a) := by
  refine ⟨rfl, rfl, ?_, ?_⟩
  · simp [restoreAcquiredData, persistSpectrumLogicVars, svWrite, acquiredDataKey,
      wavelengthCalibrationKey]
  · simp [restoreAcquiredData, persistSpectrumLogicVars, svWrite, acquiredDataKey,
      wavelengthCalibrationKey]

/- ================================================================
   Advanced spectrum logic, cosmic-ray rejection
   (logic/spectrum_logic.py lines 256-283).
   ================================================================ -/

/-- Arithmetic mean of a list of reals, as numpy computes it along the
accumulated-scan axis for one pixel. -/
noncomputable def listMeanR (l : List Real) : Real :=
  l.sum / l.length

/-- Population standard deviation of a list of reals: square root of the mean
squared deviation from the mean.  This is what np.nanstd(data, axis=0)
computes per pixel for NaN-free data (default ddof = 0). -/
noncomputable def npNanstd (l : List Real) : Real :=
  Real.sqrt (listMeanR (l.map (fun x => (x - listMeanR l) ^ 2)))

/-- Lower edge of the acceptance band computed by reject_cosmic for one pixel
whose samples across the accumulated-scan axis are l (spectrum_logic.py lines
270-272).  The source sets mean_data = np.nanstd(data, axis=0) (a standard
deviation, despite the name), std_dev_data = np.nanstd((data - mean_data)**2,
axis=0) and mask_min = mean_data - std_dev_data * self._coeff_rej_cosmic. -/
noncomputable def cosmicMaskMin (l : List Real) (k : Real) : Real :=
  npNanstd l - npNanstd (l.map (fun x => (x - npNanstd l) ^ 2)) * k

/-- Upper edge of the acceptance band computed by reject_cosmic, line 273:
mask_max = mean_data + std_dev_data * self._coeff_rej_cosmic. -/
noncomputable def cosmicMaskMax (l : List Real) (k : Real) : Real :=
  npNanstd l + npNanstd (l.map (fun x => (x - npNanstd l) ^ 2)) * k

/-- Predicate: sample x of the pixel with sample list l is masked by
reject_cosmic (np.ma.masked_outside masks the values strictly outside
[mask_min, mask_max], lines 274-277). -/
def cosmicMasked (l : List Real) (k x : Real) : Prop :=
  x < cosmicMaskMin l k ∨ cosmicMaskMax l k < x

/-- Guard of reject_cosmic (lines 265-269): the call is refused when the
number of scans in the data is less than the configured number of
accumulated scans. -/
def rejectCosmicRefused (numberAccumulatedScan : Nat) (l : List Real) : Prop :=
  l.length < numberAccumulatedScan

/-- Band the claim prescribes (second definition, following the words of the
spec, to be compared with the code definition above): sample x is outside
[mean - k * sigma, mean + k * sigma] where mean is the per-pixel mean and
sigma the per-pixel standard deviation across the accumulated-scan axis. -/
def claimMasked (l : List Real) (k x : Real) : Prop :=
  x < listMeanR l - k * npNanstd l ∨ listMeanR l + k * npNanstd l < x

/-- Per-pixel sample stack used as the failing input for C3: four accumulated
scans of one pixel with values 0, 0, 6, 6 (mean 3, standard deviation 3). -/
def c3Pixel : List Real := [0, 0, 6, 6]

lemma c3Pixel_mean : listMeanR c3Pixel = 3 := by
  simp [c3Pixel, listMeanR]
  norm_num

lemma c3Pixel_std : npNanstd c3Pixel = 3 := by
  have h : listMeanR (c3Pixel.map (fun x => (x - listMeanR c3Pixel) ^ 2)) = 9 := by
    rw [c3Pixel_mean]
    simp [c3Pixel, listMeanR]
    norm_num
  rw [npNanstd, h, show (9 : Real) = 3 ^ 2 by norm_num,
    Real.sqrt_sq (by norm_num : (0 : Real) ≤ 3)]

lemma c3Pixel_inner : c3Pixel.map (fun x => (x - npNanstd c3Pixel) ^ 2) = [9, 9, 9, 9] := by
  rw [c3Pixel_std]
  simp [c3Pixel]
  norm_num

lemma c3Pixel_inner_std : npNanstd (c3Pixel.map (fun x => (x - npNanstd c3Pixel) ^ 2)) = 0 := by
  rw [c3Pixel_inner]
  have h : listMeanR [(9 : Real), 9, 9, 9] = 9 := by
    simp [listMeanR]
    norm_num
  rw [npNanstd, h]
  have h2 : listMeanR ([(9 : Real), 9, 9, 9].map (fun x => (x - 9) ^ 2)) = 0 := by
    simp [listMeanR]
  rw [h2, Real.sqrt_zero]

/-- C3: on the stack c3Pixel (four scans of one pixel, values 0, 0, 6, 6,
accepted by the guard for the default number_accumulated_scan = 1, with the
default coefficient k = 2.2), the band reject_cosmic computes degenerates to
[3, 3] because its center is np.nanstd of the data (the name mean_data
notwithstanding) and its half-width is k times np.nanstd of the squared
deviations, which here is 0.  Every sample is therefore masked, although
every sample lies inside the band [mean - k * sigma, mean + k * sigma] that
the claim prescribes, which is [-3.6, 9.6].  The code masks in-band samples;
the claim says exactly the out-of-band samples are masked. -/
theorem C3_band_uses_std_not_mean :
    ¬ rejectCosmicRefused 1 c3Pixel ∧
    listMeanR c3Pixel = 3 ∧ npNanstd c3Pixel = 3 ∧
    cosmicMasked c3Pixel (11 / 5) 0 ∧ cosmicMasked c3Pixel (11 / 5) 6 ∧
    ¬ claimMasked c3Pixel (11 / 5) 0 ∧ ¬ claimMasked c3Pixel (11 / 5) 6 := by
  have hmin : cosmicMaskMin c3Pixel (11 / 5) = 3 := by
    rw [cosmicMaskMin, c3Pixel_inner_std, c3Pixel_std]
    norm_num
  have hmax : cosmicMaskMax c3Pixel (11 / 5) = 3 := by
    rw [cosmicMaskMax, c3Pixel_inner_std, c3Pixel_std]
    norm_num
  refine ⟨?_, c3Pixel_mean, c3Pixel_std, ?_, ?_, ?_, ?_⟩
  · simp [rejectCosmicRefused, c3Pixel]
  · left
    rw [hmin]
    norm_num
  · right
    rw [hmax]
    norm_num
  · rw [claimMasked, c3Pixel_mean, c3Pixel_std]
    push_neg
    norm_num
  · rw [claimMasked, c3Pixel_mean, c3Pixel_std]
    push_neg
    norm_num

/- ================================================================
   Scalar spectrometer scan adapter
   (logic/interfuse/confocal_scanner_spectrometer_interfuse.py,
   method scan_line, lines 119-146).
   ================================================================ -/

/-- Response of the spectrometer-logic collaborator to one get_spectrum
request inside the scan loop: a spectrum row, the absent value None, or a
raised exception. -/
inductive SpectroResp where
  | spectrum (row : List Rat)
  | absent
  | exc
  deriving DecidableEq, Repr

/-- Way the scan loop of scan_line ended: ran through all points, broke out
early on an absent spectrum, or an exception escaped. -/
inductive LineExit where
  | completed
  | aborted
  | raised
  deriving DecidableEq, Repr

/-- Loop of scan_line over the enumerate(line_path) pairs: each iteration
moves the scanner to the position (first pair component, which does not touch
the data array) and stores the requested spectrum into row i of count_data;
an absent spectrum logs an error and breaks; an exception aborts the loop and
propagates. -/
def scanLoop : List (List Rat) → Nat → List ((List Rat) × SpectroResp) →
    List (List Rat) × LineExit
  | rows, _, [] => (rows, LineExit.completed)
  | rows, i, (_, SpectroResp.spectrum row) :: rest => scanLoop (rows.set i row) (i + 1) rest
  | rows, _, (_, SpectroResp.absent) :: _ => (rows, LineExit.aborted)
  | rows, _, (_, SpectroResp.exc) :: _ => (rows, LineExit.raised)

/-- Position-erased form of scanLoop: the scanner positions do not influence
the accumulated data, only the responses do. -/
def scanLoopResp : List (List Rat) → Nat → List SpectroResp → List (List Rat) × LineExit
  | rows, _, [] => (rows, LineExit.completed)
  | rows, i, SpectroResp.spectrum row :: rest => scanLoopResp (rows.set i row) (i + 1) rest
  | rows, _, SpectroResp.absent :: _ => (rows, LineExit.aborted)
  | rows, _, SpectroResp.exc :: _ => (rows, LineExit.raised)

lemma scanLoop_eq_resp : ∀ (rows : List (List Rat)) (i : Nat)
    (ps : List ((List Rat) × SpectroResp)),
    scanLoop rows i ps = scanLoopResp rows i (ps.map Prod.snd)
  | rows, i, [] => rfl
  | rows, i, (p, SpectroResp.spectrum row) :: rest => by
      simp only [scanLoop, List.map_cons, scanLoopResp]
      exact scanLoop_eq_resp (rows.set i row) (i + 1) rest
  | rows, i, (p, SpectroResp.absent) :: rest => rfl
  | rows, i, (p, SpectroResp.exc) :: rest => rfl

/-- Result of one scan_line call: the module lock state after the call and
the outcome (the early int return -1 when entered locked, a raised exception,
or the returned count_data array). -/
inductive ScanOutcome where
  | retMinusOne
  | raisedOut
  | data (rows : List (List Rat))
  deriving DecidableEq, Repr

/-- Record holding the module lock state after the scan_line call together
with its outcome. -/
structure ScanLineResult where
  lockedAfter : Bool
  outcome : ScanOutcome
  deriving DecidableEq, Repr

/-- Model of SpectrometerScannerInterfuse.scan_line (lines 119-146 of the
scalar interfuse).  The source rejects a call while locked with return -1,
otherwise locks, allocates count_data = np.zeros((self._line_length,
number of channels)), iterates the loop above inside a try block, and the
finally clause unlocks before every return and before a raised exception
propagates.  The lineLength state field is the spec-modelled
self._line_length attribute (never assigned under src/); channels is the
length of the channel list reported by the spectrometer logic. -/
def scanLine (lineLength channels : Nat) (lockedAtEntry : Bool)
    (linePath : List (List Rat)) (resps : List SpectroResp) : ScanLineResult :=
  if lockedAtEntry then
    { lockedAfter := true, outcome := ScanOutcome.retMinusOne }
  else
    let zeroRows := List.replicate lineLength (List.replicate channels (0 : Rat))
    match scanLoop zeroRows 0 (linePath.zip resps) with
    | (_, LineExit.raised) => { lockedAfter := false, outcome := ScanOutcome.raisedOut }
    | (rows, _) => { lockedAfter := false, outcome := ScanOutcome.data rows }

lemma set_append_replicate {α : Type} (pre : List α) (m : Nat) (z row : α) :
    (pre ++ List.replicate (m + 1) z).set pre.length row = (pre ++ [row]) ++ List.replicate m z := by
  induction pre with
  | nil => simp [List.replicate_succ]
  | cons a pre ih => simp [List.set, ih]

lemma scanLoopResp_fill (z : List Rat) (rows : List (List Rat)) :
    ∀ (pre : List (List Rat)) (m : Nat) (tailR : List SpectroResp),
      scanLoopResp (pre ++ List.replicate (rows.length + m) z) pre.length
        (rows.map SpectroResp.spectrum ++ tailR) =
      scanLoopResp ((pre ++ rows) ++ List.replicate m z) (pre.length + rows.length) tailR := by
  induction rows with
  | nil => intro pre m tailR; simp
  | cons r rows ih =>
    intro pre m tailR
    have h1 : (r :: rows).length + m = (rows.length + m) + 1 := by
      simp [List.length_cons]
      omega
    rw [h1]
    simp only [List.map_cons, List.cons_append, scanLoopResp, List.append_eq]
    rw [set_append_replicate]
    have h2 : pre.length + 1 = (pre ++ [r]).length := by simp
    rw [h2, ih (pre ++ [r]) m tailR]
    have h3 : (pre ++ [r]) ++ rows = pre ++ r :: rows := by simp
    have h4 : (pre ++ [r]).length + rows.length = pre.length + (r :: rows).length := by
      simp
      omega
    rw [h3, h4]

lemma scanLoopResp_fill_nil (z : List Rat) (rows : List (List Rat)) (m : Nat)
    (tailR : List SpectroResp) :
    scanLoopResp (List.replicate (rows.length + m) z) 0
      (rows.map SpectroResp.spectrum ++ tailR) =
    scanLoopResp (rows ++ List.replicate m z) rows.length tailR := by
  have h := scanLoopResp_fill z rows [] m tailR
  simpa using h

/-- C8: behavior of the scalar scan adapter on a line of points with
lineLength set to the line length.  A call while locked returns -1 without
taking the lock; a call while unlocked releases the lock on every exit path
(normal completion, early abort, and a raised exception); when every
requested spectrum is present the returned array holds one spectrum per scan
position in order; when a spectrum comes back absent the remaining points are
aborted and the partial array (rows acquired so far, zeros elsewhere) is
returned; when an exception is raised mid-line it propagates (no data is
returned) but the lock is still released by the finally clause. -/
theorem C8_scan_line_partial_unlock (channels : Nat) (linePath : List (List Rat)) :
    (∀ resps, scanLine linePath.length channels true linePath resps =
        { lockedAfter := true, outcome := ScanOutcome.retMinusOne }) ∧
    (∀ resps, (scanLine linePath.length channels false linePath resps).lockedAfter = false) ∧
    (∀ rows : List (List Rat), rows.length = linePath.length →
        scanLine linePath.length channels false linePath (rows.map SpectroResp.spectrum) =
        { lockedAfter := false, outcome := ScanOutcome.data rows }) ∧
    (∀ (rows : List (List Rat)) (rest : List SpectroResp),
        (rows.map SpectroResp.spectrum ++ SpectroResp.absent :: rest).length = linePath.length →
        scanLine linePath.length channels false linePath
          (rows.map SpectroResp.spectrum ++ SpectroResp.absent :: rest) =
        { lockedAfter := false,
          outcome := ScanOutcome.data (rows ++
            List.replicate (linePath.length - rows.length)
              (List.replicate channels (0 : Rat))) }) ∧
    (∀ (rows : List (List Rat)) (rest : List SpectroResp),
        (rows.map SpectroResp.spectrum ++ SpectroResp.exc :: rest).length = linePath.length →
        scanLine linePath.length channels false linePath
          (rows.map SpectroResp.spectrum ++ SpectroResp.exc :: rest) =
        { lockedAfter := false, outcome := ScanOutcome.raisedOut }) := by
  refine ⟨fun resps => rfl, ?_, ?_, ?_, ?_⟩
  · intro resps
    rw [scanLine]
    simp only [if_neg (Bool.false_ne_true)]
    rcases h : scanLoop (List.replicate linePath.length (List.replicate channels 0)) 0
        (linePath.zip resps) with ⟨rows, ex⟩
    cases ex <;> simp [h]
  · intro rows hlen
    rw [scanLine]
    simp only [if_neg (Bool.false_ne_true)]
    have harg : linePath.length = rows.length + 0 := by omega
    rw [scanLoop_eq_resp, List.map_snd_zip _ _ (by simp [hlen]),
      show List.replicate linePath.length (List.replicate channels (0 : Rat)) =
        List.replicate (rows.length + 0) (List.replicate channels (0 : Rat)) by rw [← harg],
      show rows.map SpectroResp.spectrum =
        rows.map SpectroResp.spectrum ++ ([] : List SpectroResp) by simp]
    rw [scanLoopResp_fill_nil]
    simp [scanLoopResp]
  · intro rows rest hlen
    have hlen2 : rows.length + (rest.length + 1) = linePath.length := by
      simpa using hlen
    have hsum : linePath.length = rows.length + (linePath.length - rows.length) := by omega
    rw [scanLine]
    simp only [if_neg (Bool.false_ne_true)]
    rw [scanLoop_eq_resp, List.map_snd_zip _ _ (by simp; omega),
      show List.replicate linePath.length (List.replicate channels (0 : Rat)) =
        List.replicate (rows.length + (linePath.length - rows.length))
          (List.replicate channels (0 : Rat)) by rw [← hsum]]
    rw [scanLoopResp_fill_nil]
    simp [scanLoopResp]
  · intro rows rest hlen
    have hlen2 : rows.length + (rest.length + 1) = linePath.length := by
      simpa using hlen
    have hsum : linePath.length = rows.length + (linePath.length - rows.length) := by omega
    rw [scanLine]
    simp only [if_neg (Bool.false_ne_true)]
    rw [scanLoop_eq_resp, List.map_snd_zip _ _ (by simp; omega),
      show List.replicate linePath.length (List.replicate channels (0 : Rat)) =
        List.replicate (rows.length + (linePath.length - rows.length))
          (List.replicate channels (0 : Rat)) by rw [← hsum]]
    rw [scanLoopResp_fill_nil]
    simp [scanLoopResp]

/-- C8 witness: the theorem applied to a concrete two-point line with one
channel, in the full-success and the absent-abort scenarios. -/
theorem C8_scan_line_witness :
    scanLine 2 1 false [[0], [1]] [SpectroResp.spectrum [5], SpectroResp.spectrum [7]] =
      { lockedAfter := false, outcome := ScanOutcome.data [[5], [7]] } ∧
    scanLine 2 1 false [[0], [1]] [SpectroResp.spectrum [5], SpectroResp.absent] =
      { lockedAfter := false, outcome := ScanOutcome.data [[5], [0]] } := by
  constructor
  · exact (C8_scan_line_partial_unlock 1 [[0], [1]]).2.2.1 [[5], [7]] (by decide)
  · have h := (C8_scan_line_partial_unlock 1 [[0], [1]]).2.2.2.1 [[5]] [] (by decide)
    simpa using h

/- ================================================================
   Dual-polarization scan adapter
   (logic/interfuse/confocal_scanner_spectropolarimeter_interfuse.py,
   method scan_line, lines 121-160).
   ================================================================ -/

/-- Assignment self._count_data[i][j] = row into the (points x 2 x channels)
array, modelled on nested lists. -/
def setCell (cd : List (List (List Rat))) (i j : Nat) (row : List Rat) :
    List (List (List Rat)) :=
  cd.set i ((cd.getD i []).set j row)

/-- Loop of the dual-polarization scan_line over enumerate(line_path): per
point i the scanner is positioned, two acquisitions are taken (the per-call
singleton unwrap of a (1, channels) result is folded into the modelled
response row), the first stored into component 0 and the second into
component 1 of point i; an absent acquisition breaks out of the loop.  The
np.reshape call of source line 158 is evaluated inside the loop and its
result discarded (np.reshape is not in place; as written the source line is
also missing its closing parenthesis), so the loop result is the unreshaped
array. -/
def polarLoop : List (List (List Rat)) → Nat →
    List ((List Rat) × (Option (List Rat) × Option (List Rat))) → List (List (List Rat))
  | cd, _, [] => cd
  | cd, i, (_, (d1, d2)) :: rest =>
    match d1 with
    | none => cd
    | some r1 =>
      let cd1 := setCell cd i 0 r1
      match d2 with
      | none => cd1
      | some r2 => polarLoop (setCell cd1 i 1 r2) (i + 1) rest

/-- Model of the dual-polarization scan_line: count_data is allocated as
np.zeros((len(line_path), 2, channels)) after the line_path transpose (the
model takes the already transposed list of points), the loop fills it, and
the method returns self._count_data itself, still of shape
(points, 2, channels). -/
def polarScanLine (channels : Nat) (linePathT : List (List Rat))
    (resps : List (Option (List Rat) × Option (List Rat))) : List (List (List Rat)) :=
  let cd := List.replicate linePathT.length
    (List.replicate 2 (List.replicate channels (0 : Rat)))
  polarLoop cd 0 (linePathT.zip resps)

/-- Reshape of the (points, 2, channels) array to (points, 2 times channels),
the value the np.reshape call of line 158 computes and discards: per point
the two spectra are concatenated. -/
def polarReshapeDiscarded (cd : List (List (List Rat))) : List (List Rat) :=
  cd.map List.flatten

/-- C5: on a one-point line with one channel and the two acquisitions
returning the rows [5] and [7], scan_line returns the nested
(points, 2, channels) array [[[5], [7]]] - each point still holds a list of
two separate spectra - whereas the reshape the claim says is returned would
be the (points, 2 times channels) array [[5, 7]].  The reshaped value is
computed but discarded, so the claimed return shape never reaches the
caller. -/
theorem C5_reshape_result_discarded :
    polarScanLine 1 [[0, 0, 0, 0]] [(some [5], some [7])] = [[[5], [7]]] ∧
    polarReshapeDiscarded (polarScanLine 1 [[0, 0, 0, 0]] [(some [5], some [7])]) = [[5, 7]] ∧
    (polarScanLine 1 [[0, 0, 0, 0]] [(some [5], some [7])]).map List.length = [2] := by
  refine ⟨by decide, by decide, by decide⟩

/- ================================================================
   Advanced spectrum logic SpectrumLogic (logic/spectrum_logic.py):
   module state, caches, constraints and the property setters.
   ================================================================ -/

/-- Module state of a logic module: the lock flag checked by every guarded
setter (module_state() == locked). -/
inductive ModuleState where
  | idle
  | locked
  deriving DecidableEq, Repr

/-- Port type enumeration of the grating-spectrometer contract. -/
inductive PortT where
  | INPUT_FRONT
  | INPUT_SIDE
  | OUTPUT_FRONT
  | OUTPUT_SIDE
  deriving DecidableEq, Repr

/-- Read mode enumeration of the science-camera contract. -/
inductive ReadModeT where
  | FVB
  | MULTIPLE_TRACKS
  | IMAGE
  | IMAGE_ADVANCED
  deriving DecidableEq, Repr

/-- Modelled from the spec: the ShutterState enumeration of the
science-camera contract (interface/science_camera_interface.py is not under
src/); an enumerated shutter state with at least two values. -/
inductive ShutterT where
  | CLOSED
  | OPEN
  deriving DecidableEq, Repr

/-- Effects of the SpectrumLogic setters: log entries and the hardware calls
issued to the spectrometer and camera collaborators. -/
inductive SLEffect where
  | logError
  | logInfo
  | spectroSetGratingIndex (i : Int)
  | spectroGetGratingIndex
  | spectroSetWavelength (w : Rat)
  | spectroGetWavelength
  | spectroSetInputPort (p : PortT)
  | spectroGetInputPort
  | spectroSetOutputPort (p : PortT)
  | spectroGetOutputPort
  | spectroSetSlitWidth (p : PortT) (w : Rat)
  | spectroGetSlitWidth (p : PortT)
  | camSetReadMode (m : ReadModeT)
  | camGetReadMode
  | camSetReadoutSpeed (v : Rat)
  | camGetReadoutSpeed
  | camSetActiveTracks (t : List Int)
  | camGetActiveTracks
  | camSetGain (g : Rat)
  | camGetGain
  | camSetExposureTime (t : Rat)
  | camGetExposureTime
  | camSetTriggerMode (m : String)
  | camGetTriggerMode
  | camSetShutterState (st : ShutterT)
  | camGetShutterState
  | camSetCoolerOn (b : Bool)
  | camSetTemperatureSetpoint (t : Rat)
  | camGetTemperatureSetpoint
  | camStartAcquisition
  | statusTimerStart
  deriving DecidableEq, Repr

/-- State of the spectrometer collaborator hardware: the values its getters
report after the corresponding setters stored them. -/
structure SpectroHW where
  gratingIndex : Int
  wavelength : Rat
  inputPort : PortT
  outputPort : PortT
  slitInputFront : Rat
  slitInputSide : Rat
  slitOutputFront : Rat
  slitOutputSide : Rat
  deriving DecidableEq, Repr

/-- Slit width the spectrometer hardware reports for a port. -/
def SpectroHW.getSlit (hw : SpectroHW) : PortT → Rat
  | PortT.INPUT_FRONT => hw.slitInputFront
  | PortT.INPUT_SIDE => hw.slitInputSide
  | PortT.OUTPUT_FRONT => hw.slitOutputFront
  | PortT.OUTPUT_SIDE => hw.slitOutputSide

/-- Slit width programmed into the spectrometer hardware for a port. -/
def SpectroHW.setSlit (hw : SpectroHW) (p : PortT) (w : Rat) : SpectroHW :=
  match p with
  | PortT.INPUT_FRONT => { hw with slitInputFront := w }
  | PortT.INPUT_SIDE => { hw with slitInputSide := w }
  | PortT.OUTPUT_FRONT => { hw with slitOutputFront := w }
  | PortT.OUTPUT_SIDE => { hw with slitOutputSide := w }

/-- State of the camera collaborator hardware. -/
structure CameraHW where
  readMode : ReadModeT
  readoutSpeed : Rat
  activeTracks : List Int
  gain : Rat
  exposureTime : Rat
  triggerMode : String
  shutter : ShutterT
  coolerOn : Bool
  temperatureSetpoint : Rat
  acquiring : Bool
  deriving DecidableEq, Repr

/-- Camera constraints cached by on_activate (camera_constraints). -/
structure CameraConstraints where
  width : Int
  height : Int
  internalGains : List Rat
  readoutSpeeds : List Rat
  readModes : List ReadModeT
  triggerModes : List String
  hasShutter : Bool
  hasCooler : Bool
  deriving DecidableEq, Repr

/-- Spectrometer constraints cached by on_activate (spectro_constraints):
the number of gratings, per grating the wavelength_max bound, and the port
types of the filtered _input_ports and _output_ports lists. -/
structure SpectroConstraints where
  numberOfGratings : Int
  wavelengthMax : List Rat
  inputPorts : List PortT
  outputPorts : List PortT
  deriving DecidableEq, Repr

/-- State of the SpectrumLogic module: module lock, the two collaborator
hardware states, the cached constraints, and every cached property field the
claims mention. -/
structure SLState where
  moduleState : ModuleState
  spectro : SpectroHW
  camera : CameraHW
  spectroConstraints : SpectroConstraints
  cameraConstraints : CameraConstraints
  gratingIndex : Int
  centerWavelength : Rat
  inputPort : PortT
  outputPort : PortT
  inputSlitWidth : List (Option Rat)
  outputSlitWidth : List (Option Rat)
  readMode : ReadModeT
  readoutSpeed : Rat
  activeTracks : List Int
  acquisitionMode : String
  cameraGain : Rat
  exposureTime : Rat
  scanDelay : Rat
  accumulationDelay : Rat
  numberOfScan : Int
  numberAccumulatedScan : Int
  triggerMode : String
  shutterState : ShutterT
  temperatureSetpoint : Rat
  deriving DecidableEq, Repr

/-- Setter of grating_index (spectrum_logic.py lines 358-381): lock guard,
silent no-op when the value equals the cache (this check precedes the range
check), error log when the value is outside [0, number of gratings), else
push to the spectrometer and refresh the cache from a re-read.  The unused
local grating_number = int(grating_index) is dropped; integer inputs are
modelled (the int conversion is the identity on them). -/
def sl_grating_index_set (s : SLState) (grating_index : Int) : SLState × List SLEffect :=
  if s.moduleState = ModuleState.locked then (s, [SLEffect.logError])
  else if grating_index = s.gratingIndex then (s, [])
  else
    let number_of_gratings := s.spectroConstraints.numberOfGratings
    if ¬ (0 ≤ grating_index ∧ grating_index < number_of_gratings) then (s, [SLEffect.logError])
    else
      let sp := { s.spectro with gratingIndex := grating_index }
      ({ s with spectro := sp, gratingIndex := sp.gratingIndex },
       [SLEffect.spectroSetGratingIndex grating_index, SLEffect.spectroGetGratingIndex])

/-- Setter of center_wavelength (lines 398-419): lock guard, range check
0 < wavelength < wavelength_max of the cached grating, then push and re-read.
The float() conversion is the identity on the rational model. -/
def sl_center_wavelength_set (s : SLState) (wavelength : Rat) : SLState × List SLEffect :=
  if s.moduleState = ModuleState.locked then (s, [SLEffect.logError])
  else
    let wavelength_max := s.spectroConstraints.wavelengthMax.getD s.gratingIndex.toNat 0
    if ¬ (0 < wavelength ∧ wavelength < wavelength_max) then (s, [SLEffect.logError])
    else
      let sp := { s.spectro with wavelength := wavelength }
      ({ s with spectro := sp, centerWavelength := sp.wavelength },
       [SLEffect.spectroSetWavelength wavelength, SLEffect.spectroGetWavelength])

/-- Setter of input_port (lines 482-507): lock guard, error when fewer than
two input ports exist (no flipper mirror), error when the value is not among
the input port types, silent no-op on the cached value, else push and
re-read.  The string-to-PortType conversion branch is the identity on the
PortT model. -/
def sl_input_port_set (s : SLState) (input_port : PortT) : SLState × List SLEffect :=
  if s.moduleState = ModuleState.locked then (s, [SLEffect.logError])
  else if s.spectroConstraints.inputPorts.length < 2 then (s, [SLEffect.logError])
  else if ¬ (input_port ∈ s.spectroConstraints.inputPorts) then (s, [SLEffect.logError])
  else if input_port = s.inputPort then (s, [])
  else
    let sp := { s.spectro with inputPort := input_port }
    ({ s with spectro := sp, inputPort := sp.inputPort },
     [SLEffect.spectroSetInputPort input_port, SLEffect.spectroGetInputPort])

/-- Setter of output_port (lines 520-545), symmetric to the input port. -/
def sl_output_port_set (s : SLState) (output_port : PortT) : SLState × List SLEffect :=
  if s.moduleState = ModuleState.locked then (s, [SLEffect.logError])
  else if s.spectroConstraints.outputPorts.length < 2 then (s, [SLEffect.logError])
  else if ¬ (output_port ∈ s.spectroConstraints.outputPorts) then (s, [SLEffect.logError])
  else if output_port = s.outputPort then (s, [])
  else
    let sp := { s.spectro with outputPort := output_port }
    ({ s with spectro := sp, outputPort := sp.outputPort },
     [SLEffect.spectroSetOutputPort output_port, SLEffect.spectroGetOutputPort])

/-- Method set_input_slit_width for the default port argument current (lines
611-642), reached from the input_slit_width property setter: lock guard,
resolve the current input port, error when that port is not among the input
port types, silent no-op when the cached width equals the argument, else
push and refresh the cache entry from a re-read. -/
def sl_set_input_slit_width (s : SLState) (slit_width : Rat) : SLState × List SLEffect :=
  if s.moduleState = ModuleState.locked then (s, [SLEffect.logError])
  else
    let port := s.inputPort
    let input_types := s.spectroConstraints.inputPorts
    if ¬ (port ∈ input_types) then (s, [SLEffect.logError])
    else
      let index := input_types.indexOf port
      if s.inputSlitWidth.getD index none = some slit_width then (s, [])
      else
        let sp := s.spectro.setSlit port slit_width
        ({ s with spectro := sp,
                  inputSlitWidth := s.inputSlitWidth.set index (some (sp.getSlit port)) },
         [SLEffect.spectroSetSlitWidth port slit_width, SLEffect.spectroGetSlitWidth port])

/-- Method set_output_slit_width for the default port argument current
(lines 670-704), symmetric to the input side. -/
def sl_set_output_slit_width (s : SLState) (slit_width : Rat) : SLState × List SLEffect :=
  if s.moduleState = ModuleState.locked then (s, [SLEffect.logError])
  else
    let port := s.outputPort
    let output_types := s.spectroConstraints.outputPorts
    if ¬ (port ∈ output_types) then (s, [SLEffect.logError])
    else
      let index := output_types.indexOf port
      if s.outputSlitWidth.getD index none = some slit_width then (s, [])
      else
        let sp := s.spectro.setSlit port slit_width
        ({ s with spectro := sp,
                  outputSlitWidth := s.outputSlitWidth.set index (some (sp.getSlit port)) },
         [SLEffect.spectroSetSlitWidth port slit_width, SLEffect.spectroGetSlitWidth port])

/-- Setter of read_mode (lines 746-766): lock guard, silent no-op on the
cached value (checked before validity), error when the mode is not among the
camera read modes, else push and refresh from a re-read (the source caches
the name of the re-read enum member; enum member and name are identified in
the model). -/
def sl_read_mode_set (s : SLState) (read_mode : ReadModeT) : SLState × List SLEffect :=
  if s.moduleState = ModuleState.locked then (s, [SLEffect.logError])
  else if read_mode = s.readMode then (s, [])
  else if ¬ (read_mode ∈ s.cameraConstraints.readModes) then (s, [SLEffect.logError])
  else
    let cam := { s.camera with readMode := read_mode }
    ({ s with camera := cam, readMode := cam.readMode },
     [SLEffect.camSetReadMode read_mode, SLEffect.camGetReadMode])

/-- Setter of readout_speed (lines 779-801): lock guard, error when the
value is not among the camera readout speeds, silent no-op on the cached
value, else push and refresh from a re-read. -/
def sl_readout_speed_set (s : SLState) (readout_speed : Rat) : SLState × List SLEffect :=
  if s.moduleState = ModuleState.locked then (s, [SLEffect.logError])
  else if ¬ (readout_speed ∈ s.cameraConstraints.readoutSpeeds) then (s, [SLEffect.logError])
  else if readout_speed = s.readoutSpeed then (s, [])
  else
    let cam := { s.camera with readoutSpeed := readout_speed }
    ({ s with camera := cam, readoutSpeed := cam.readoutSpeed },
     [SLEffect.camSetReadoutSpeed readout_speed, SLEffect.camGetReadoutSpeed])

/-- Setter of active_tracks (lines 814-841): lock guard, error when a track
position is outside [0, image height), append image_height - 1 when the
length is odd, silent no-op when equal to the cache (the numpy array
comparison of line 837 is modelled as list equality), else push and refresh
from a re-read (the pairing into (start, end) tuples before the hardware
call is a pure reshape, folded into the flat list). -/
def sl_active_tracks_set (s : SLState) (active_tracks : List Int) : SLState × List SLEffect :=
  if s.moduleState = ModuleState.locked then (s, [SLEffect.logError])
  else if ¬ (∀ t ∈ active_tracks, 0 ≤ t ∧ t < s.cameraConstraints.height) then
    (s, [SLEffect.logError])
  else
    let tracks := if active_tracks.length % 2 = 0 then active_tracks
      else active_tracks ++ [s.cameraConstraints.height - 1]
    if tracks = s.activeTracks then (s, [])
    else
      let cam := { s.camera with activeTracks := tracks }
      ({ s with camera := cam, activeTracks := cam.activeTracks },
       [SLEffect.camSetActiveTracks tracks, SLEffect.camGetActiveTracks])

/-- Names of the AcquisitionMode enumeration members (spectrum_logic.py
lines 43-57). -/
def acquisitionModeNames : List String :=
  ["SINGLE_SCAN", "MULTI_SCAN", "LIVE_SCAN", "ACC_SINGLE_SCAN", "ACC_MULTI_SCAN"]

/-- Setter of acquisition_mode (lines 925-944): lock guard, error when the
name is not an AcquisitionMode member, else store the name in the cache (no
hardware call). -/
def sl_acquisition_mode_set (s : SLState) (acquisition_mode : String) : SLState × List SLEffect :=
  if s.moduleState = ModuleState.locked then (s, [SLEffect.logError])
  else if ¬ (acquisition_mode ∈ acquisitionModeNames) then (s, [SLEffect.logError])
  else ({ s with acquisitionMode := acquisition_mode }, [])

/-- Setter of camera_gain (lines 957-979): lock guard, error when the gain
is not among the camera internal gains, silent no-op on the cached value,
else push and refresh from a re-read. -/
def sl_camera_gain_set (s : SLState) (camera_gain : Rat) : SLState × List SLEffect :=
  if s.moduleState = ModuleState.locked then (s, [SLEffect.logError])
  else if ¬ (camera_gain ∈ s.cameraConstraints.internalGains) then (s, [SLEffect.logError])
  else if camera_gain = s.cameraGain then (s, [])
  else
    let cam := { s.camera with gain := camera_gain }
    ({ s with camera := cam, cameraGain := cam.gain },
     [SLEffect.camSetGain camera_gain, SLEffect.camGetGain])

/-- Setter of exposure_time (lines 992-1012): lock guard, error unless the
time is positive, silent no-op on the cached value, else push and refresh
from a re-read. -/
def sl_exposure_time_set (s : SLState) (exposure_time : Rat) : SLState × List SLEffect :=
  if s.moduleState = ModuleState.locked then (s, [SLEffect.logError])
  else if ¬ (exposure_time > 0) then (s, [SLEffect.logError])
  else if exposure_time = s.exposureTime then (s, [])
  else
    let cam := { s.camera with exposureTime := exposure_time }
    ({ s with camera := cam, exposureTime := cam.exposureTime },
     [SLEffect.camSetExposureTime exposure_time, SLEffect.camGetExposureTime])

/-- Setter of accumulation_delay (lines 1025-1049): lock guard, error unless
positive, error unless strictly between the exposure time and scan_delay
divided by number_accumulated_scan, silent no-op on the cached value, else
store in the cache (no hardware call). -/
def sl_accumulation_delay_set (s : SLState) (accumulation_delay : Rat) : SLState × List SLEffect :=
  if s.moduleState = ModuleState.locked then (s, [SLEffect.logError])
  else if ¬ (accumulation_delay > 0) then (s, [SLEffect.logError])
  else if ¬ (s.exposureTime < accumulation_delay ∧
      accumulation_delay < s.scanDelay / (s.numberAccumulatedScan : Rat)) then
    (s, [SLEffect.logError])
  else if accumulation_delay = s.accumulationDelay then (s, [])
  else ({ s with accumulationDelay := accumulation_delay }, [])

/-- Setter of scan_delay (lines 1062-1089): lock guard, error unless
positive, error unless larger than the exposure time, error when not larger
than the accumulation delay while the acquisition mode name starts with ACC,
silent no-op on the cached value, else store in the cache (no hardware
call). -/
def sl_scan_delay_set (s : SLState) (scan_delay : Rat) : SLState × List SLEffect :=
  if s.moduleState = ModuleState.locked then (s, [SLEffect.logError])
  else if ¬ (scan_delay > 0) then (s, [SLEffect.logError])
  else if ¬ (s.exposureTime < scan_delay) then (s, [SLEffect.logError])
  else if ¬ (s.accumulationDelay < scan_delay) ∧ s.acquisitionMode.take 3 = "ACC" then
    (s, [SLEffect.logError])
  else if scan_delay = s.scanDelay then (s, [])
  else ({ s with scanDelay := scan_delay }, [])

/-- Setter of number_accumulated_scan (lines 1102-1124): lock guard, error
unless positive; when number times accumulation_delay exceeds scan_delay an
error is logged but the source does not return there, so the assignment
still happens; silent no-op on the cached value, else store in the cache. -/
def sl_number_accumulated_scan_set (s : SLState) (number_scan : Int) : SLState × List SLEffect :=
  if s.moduleState = ModuleState.locked then (s, [SLEffect.logError])
  else if ¬ (number_scan > 0) then (s, [SLEffect.logError])
  else
    let warn := if (number_scan : Rat) * s.accumulationDelay > s.scanDelay
      then [SLEffect.logError] else []
    if number_scan = s.numberAccumulatedScan then (s, warn)
    else ({ s with numberAccumulatedScan := number_scan }, warn)

/-- Setter of number_of_scan (lines 1137-1156): lock guard, error unless
positive, silent no-op on the cached value, else store in the cache. -/
def sl_number_of_scan_set (s : SLState) (number_scan : Int) : SLState × List SLEffect :=
  if s.moduleState = ModuleState.locked then (s, [SLEffect.logError])
  else if ¬ (number_scan > 0) then (s, [SLEffect.logError])
  else if number_scan = s.numberOfScan then (s, [])
  else ({ s with numberOfScan := number_scan }, [])

/-- Setter of trigger_mode (lines 1173-1195): lock guard, error when the
mode is not among the camera trigger modes, silent no-op on the cached
value, else push and refresh from a re-read (the TriggerMode-to-name
conversion is the identity on the string model). -/
def sl_trigger_mode_set (s : SLState) (trigger_mode : String) : SLState × List SLEffect :=
  if s.moduleState = ModuleState.locked then (s, [SLEffect.logError])
  else if ¬ (trigger_mode ∈ s.cameraConstraints.triggerModes) then (s, [SLEffect.logError])
  else if trigger_mode = s.triggerMode then (s, [])
  else
    let cam := { s.camera with triggerMode := trigger_mode }
    ({ s with camera := cam, triggerMode := cam.triggerMode },
     [SLEffect.camSetTriggerMode trigger_mode, SLEffect.camGetTriggerMode])

/-- Method start_acquisition (lines 200-209): rejected with an error log
while locked, otherwise locks the module, starts the camera and starts the
status timer. -/
def sl_start_acquisition (s : SLState) : SLState × List SLEffect :=
  if s.moduleState = ModuleState.locked then (s, [SLEffect.logError])
  else
    ({ s with moduleState := ModuleState.locked,
              camera := { s.camera with acquiring := true } },
     [SLEffect.camStartAcquisition, SLEffect.statusTimerStart])

/-- Setter of shutter_state (lines 1215-1235).  Note: this setter has no
module-lock guard.  It errors when the camera has no shutter, is a silent
no-op on the cached value, then pushes to the camera and refreshes the cache
from a re-read (the string-to-ShutterState conversion and the name
projection are the identity on the ShutterT model, and the invalid-type
error branch is unreachable for ShutterT inputs). -/
def sl_shutter_state_set (s : SLState) (shutter_state : ShutterT) : SLState × List SLEffect :=
  if ¬ s.cameraConstraints.hasShutter then (s, [SLEffect.logError])
  else if s.shutterState = shutter_state then (s, [])
  else
    let cam := { s.camera with shutter := shutter_state }
    ({ s with camera := cam, shutterState := cam.shutter },
     [SLEffect.camSetShutterState shutter_state, SLEffect.camGetShutterState])

/-- Setter of cooler_status (lines 1255-1268).  Note: this setter has no
module-lock guard.  It errors when the camera has no cooler, else pushes the
boolean to the camera (there is no cached cooler field). -/
def sl_cooler_status_set (s : SLState) (cooler_status : Bool) : SLState × List SLEffect :=
  if ¬ s.cameraConstraints.hasCooler then (s, [SLEffect.logError])
  else
    ({ s with camera := { s.camera with coolerOn := cooler_status } },
     [SLEffect.camSetCoolerOn cooler_status])

/-- Setter of camera_temperature_setpoint (lines 1298-1314).  Note: this
setter has no module-lock guard.  It errors when the camera has no cooler,
errors when the setpoint is not positive, else pushes to the camera and
refreshes the cache from a re-read. -/
def sl_camera_temperature_setpoint_set (s : SLState) (temperature_setpoint : Rat) :
    SLState × List SLEffect :=
  if ¬ s.cameraConstraints.hasCooler then (s, [SLEffect.logError])
  else if temperature_setpoint ≤ 0 then (s, [SLEffect.logError])
  else
    let cam := { s.camera with temperatureSetpoint := temperature_setpoint }
    ({ s with camera := cam, temperatureSetpoint := cam.temperatureSetpoint },
     [SLEffect.camSetTemperatureSetpoint temperature_setpoint,
      SLEffect.camGetTemperatureSetpoint])

/-- Concrete spectrometer hardware state used by the concrete SpectrumLogic
states below. -/
def slSpectroHW : SpectroHW :=
  { gratingIndex := 1
    wavelength := 600
    inputPort := PortT.INPUT_FRONT
    outputPort := PortT.OUTPUT_FRONT
    slitInputFront := 100
    slitInputSide := 100
    slitOutputFront := 100
    slitOutputSide := 100 }

/-- Concrete camera hardware state. -/
def slCameraHW : CameraHW :=
  { readMode := ReadModeT.FVB
    readoutSpeed := 50000
    activeTracks := []
    gain := 1
    exposureTime := 1
    triggerMode := "INTERNAL"
    shutter := ShutterT.CLOSED
    coolerOn := true
    temperatureSetpoint := 80
    acquiring := false }

/-- Concrete spectrometer constraints: three gratings, two input and two
output ports. -/
def slScon : SpectroConstraints :=
  { numberOfGratings := 3
    wavelengthMax := [1000, 1000, 1000]
    inputPorts := [PortT.INPUT_FRONT, PortT.INPUT_SIDE]
    outputPorts := [PortT.OUTPUT_FRONT, PortT.OUTPUT_SIDE] }

/-- Concrete camera constraints with a shutter and a cooler. -/
def slCcon : CameraConstraints :=
  { width := 1024
    height := 256
    internalGains := [1, 2, 4]
    readoutSpeeds := [50000, 1000000]
    readModes := [ReadModeT.FVB, ReadModeT.IMAGE]
    triggerModes := ["INTERNAL", "EXTERNAL"]
    hasShutter := true
    hasCooler := true }

/-- Concrete SpectrumLogic state with the module LOCKED (an acquisition in
progress). -/
def slLockedState : SLState :=
  { moduleState := ModuleState.locked
    spectro := slSpectroHW
    camera := slCameraHW
    spectroConstraints := slScon
    cameraConstraints := slCcon
    gratingIndex := 1
    centerWavelength := 600
    inputPort := PortT.INPUT_FRONT
    outputPort := PortT.OUTPUT_FRONT
    inputSlitWidth := [some 100, some 100]
    outputSlitWidth := [some 100, none]
    readMode := ReadModeT.FVB
    readoutSpeed := 50000
    activeTracks := []
    acquisitionMode := "SINGLE_SCAN"
    cameraGain := 1
    exposureTime := 1
    scanDelay := 1
    accumulationDelay := 1 / 100
    numberOfScan := 1
    numberAccumulatedScan := 1
    triggerMode := "INTERNAL"
    shutterState := ShutterT.CLOSED
    temperatureSetpoint := 80 }

/-- Concrete SpectrumLogic state with the module idle. -/
def slIdleState : SLState :=
  { slLockedState with moduleState := ModuleState.idle }

/-- C1 counterexample: in the locked state slLockedState, assigning the
camera temperature setpoint (one of the settable properties the claim
enumerates) with the valid value 100 is NOT rejected: the setter issues both
hardware calls, updates the cached _temperature_setpoint field from 80 to
100, and logs no rejection, because the setter bodies of shutter_state,
cooler_status and camera_temperature_setpoint contain no module-lock
guard. -/
theorem C1_locked_guard_counterexample :
    slLockedState.moduleState = ModuleState.locked ∧
    slLockedState.temperatureSetpoint = 80 ∧
    (sl_camera_temperature_setpoint_set slLockedState 100).1.temperatureSetpoint = 100 ∧
    (sl_camera_temperature_setpoint_set slLockedState 100).2 =
      [SLEffect.camSetTemperatureSetpoint 100, SLEffect.camGetTemperatureSetpoint] ∧
    SLEffect.logError ∉ (sl_camera_temperature_setpoint_set slLockedState 100).2 := by
  refine ⟨rfl, rfl, ?_, ?_, ?_⟩ <;> decide

/-- C1 amended: while the module state is locked, every settable property of
the claim EXCEPT shutter state, cooler on/off and temperature setpoint (that
is: grating index, center wavelength, input and output port, input and
output slit width, read mode, readout speed, active tracks, acquisition
mode, camera gain, exposure time, accumulation delay, scan delay, number of
accumulated scans, number of scans, trigger mode) and start_acquisition log
a rejection and return with every cached field unchanged and no hardware
call issued; the shutter-state, cooler and temperature-setpoint setters
perform no lock check and proceed to the hardware even while locked. -/
theorem C1_locked_guard_amended (s : SLState) (h : s.moduleState = ModuleState.locked) :
    (∀ v, sl_grating_index_set s v = (s, [SLEffect.logError])) ∧
    (∀ v, sl_center_wavelength_set s v = (s, [SLEffect.logError])) ∧
    (∀ v, sl_input_port_set s v = (s, [SLEffect.logError])) ∧
    (∀ v, sl_output_port_set s v = (s, [SLEffect.logError])) ∧
    (∀ v, sl_set_input_slit_width s v = (s, [SLEffect.logError])) ∧
    (∀ v, sl_set_output_slit_width s v = (s, [SLEffect.logError])) ∧
    (∀ v, sl_read_mode_set s v = (s, [SLEffect.logError])) ∧
    (∀ v, sl_readout_speed_set s v = (s, [SLEffect.logError])) ∧
    (∀ v, sl_active_tracks_set s v = (s, [SLEffect.logError])) ∧
    (∀ v, sl_acquisition_mode_set s v = (s, [SLEffect.logError])) ∧
    (∀ v, sl_camera_gain_set s v = (s, [SLEffect.logError])) ∧
    (∀ v, sl_exposure_time_set s v = (s, [SLEffect.logError])) ∧
    (∀ v, sl_accumulation_delay_set s v = (s, [SLEffect.logError])) ∧
    (∀ v, sl_scan_delay_set s v = (s, [SLEffect.logError])) ∧
    (∀ v, sl_number_accumulated_scan_set s v = (s, [SLEffect.logError])) ∧
    (∀ v, sl_number_of_scan_set s v = (s, [SLEffect.logError])) ∧
    (∀ v, sl_trigger_mode_set s v = (s, [SLEffect.logError])) ∧
    (sl_start_acquisition s = (s, [SLEffect.logError])) ∧
    (∀ t, s.cameraConstraints.hasCooler = true → 0 < t →
        sl_camera_temperature_setpoint_set s t =
          ({ s with camera := { s.camera with temperatureSetpoint := t },
                    temperatureSetpoint := t },
           [SLEffect.camSetTemperatureSetpoint t, SLEffect.camGetTemperatureSetpoint])) ∧
    (∀ b, s.cameraConstraints.hasCooler = true →
        sl_cooler_status_set s b =
          ({ s with camera := { s.camera with coolerOn := b } },
           [SLEffect.camSetCoolerOn b])) ∧
    (∀ v, s.cameraConstraints.hasShutter = true → v ≠ s.shutterState →
        sl_shutter_state_set s v =
          ({ s with camera := { s.camera with shutter := v }, shutterState := v },
           [SLEffect.camSetShutterState v, SLEffect.camGetShutterState])) := by
  refine ⟨?_, ?_, ?_, ?_, ?_, ?_, ?_, ?_, ?_, ?_, ?_, ?_, ?_, ?_, ?_, ?_, ?_, ?_, ?_, ?_, ?_⟩
  · intro v; simp [sl_grating_index_set, h]
  · intro v; simp [sl_center_wavelength_set, h]
  · intro v; simp [sl_input_port_set, h]
  · intro v; simp [sl_output_port_set, h]
  · intro v; simp [sl_set_input_slit_width, h]
  · intro v; simp [sl_set_output_slit_width, h]
  · intro v; simp [sl_read_mode_set, h]
  · intro v; simp [sl_readout_speed_set, h]
  · intro v; simp [sl_active_tracks_set, h]
  · intro v; simp [sl_acquisition_mode_set, h]
  · intro v; simp [sl_camera_gain_set, h]
  · intro v; simp [sl_exposure_time_set, h]
  · intro v; simp [sl_accumulation_delay_set, h]
  · intro v; simp [sl_scan_delay_set, h]
  · intro v; simp [sl_number_accumulated_scan_set, h]
  · intro v; simp [sl_number_of_scan_set, h]
  · intro v; simp [sl_trigger_mode_set, h]
  · simp [sl_start_acquisition, h]
  · intro t hc ht
    simp [sl_camera_temperature_setpoint_set, hc, not_le.mpr ht]
  · intro b hc
    simp [sl_cooler_status_set, hc]
  · intro v hs hne
    simp [sl_shutter_state_set, hs, Ne.symm hne]

/-- C1 witness: the amended theorem applied at the concrete locked state,
for a representative guarded setter of each kind and for the unguarded
cooler setter. -/
theorem C1_locked_guard_witness :
    sl_grating_index_set slLockedState 2 = (slLockedState, [SLEffect.logError]) ∧
    sl_exposure_time_set slLockedState 2 = (slLockedState, [SLEffect.logError]) ∧
    sl_start_acquisition slLockedState = (slLockedState, [SLEffect.logError]) ∧
    (sl_cooler_status_set slLockedState false).2 = [SLEffect.camSetCoolerOn false] := by
  obtain ⟨h1, h2, h3, h4, h5, h6, h7, h8, h9, h10, h11, h12, h13, h14, h15, h16, h17,
    h18, h19, h20, h21⟩ := C1_locked_guard_amended slLockedState rfl
  exact ⟨h1 2, h12 2, h18, by rw [h20 false rfl]⟩

/-- C7: for every idle SpectrumLogic state whose cached grating index is in
range (the invariant the hardware read at activation establishes), the
grating_index setter logs an error and leaves the state unchanged with no
spectrometer call for every value outside [0, number of gratings); it is a
silent no-op (no hardware call, no log) for the currently cached index; and
for an in-range new value it pushes the value to the spectrometer and
refreshes the cache from a re-read. -/
theorem C7_grating_index_guard (s : SLState) (h : s.moduleState = ModuleState.idle)
    (hidx : 0 ≤ s.gratingIndex ∧ s.gratingIndex < s.spectroConstraints.numberOfGratings) :
    (∀ v : Int, ¬ (0 ≤ v ∧ v < s.spectroConstraints.numberOfGratings) →
        sl_grating_index_set s v = (s, [SLEffect.logError])) ∧
    sl_grating_index_set s s.gratingIndex = (s, []) ∧
    (∀ v : Int, (0 ≤ v ∧ v < s.spectroConstraints.numberOfGratings) → v ≠ s.gratingIndex →
        sl_grating_index_set s v =
          ({ s with spectro := { s.spectro with gratingIndex := v }, gratingIndex := v },
           [SLEffect.spectroSetGratingIndex v, SLEffect.spectroGetGratingIndex])) := by
  refine ⟨?_, ?_, ?_⟩
  · intro v hv
    have hne : v ≠ s.gratingIndex := by
      rintro rfl
      exact hv hidx
    simp [sl_grating_index_set, h, hne, hv]
  · simp [sl_grating_index_set, h]
  · intro v hv hne
    simp [sl_grating_index_set, h, hne, hv.1, hv.2]

/-- C7 witness: the theorem applied at the concrete idle state (cached index
1 of 3 gratings): the out-of-range value 5 is rejected, re-assigning the
cached index 1 is a silent no-op, and the in-range value 2 is pushed and
re-read. -/
theorem C7_grating_index_witness :
    sl_grating_index_set slIdleState 5 = (slIdleState, [SLEffect.logError]) ∧
    sl_grating_index_set slIdleState 1 = (slIdleState, []) ∧
    sl_grating_index_set slIdleState 2 =
      ({ slIdleState with spectro := { slIdleState.spectro with gratingIndex := 2 },
                          gratingIndex := 2 },
       [SLEffect.spectroSetGratingIndex 2, SLEffect.spectroGetGratingIndex]) := by
  obtain ⟨ha, hb, hc⟩ := C7_grating_index_guard slIdleState rfl (by decide)
  exact ⟨ha 5 (by decide), hb, hc 2 (by decide) (by decide)⟩

/-- C10 witness: the round-trip theorem applied at the concrete device
c4Device (vendor-stored grating number 2). -/
theorem C10_grating_offby_one_witness :
    shGetGrating (shSetGrating c4Device 4) = 3 ∧
    (shSetGrating c4Device (shGetGrating c4Device)).grating = 1 := by
  have h := C10_grating_offby_one c4Device 4
  constructor
  · rw [h.1]
    decide
  · rw [h.2]
    decide

/-- C9 witness: the shared-key theorem applied at the empty store with a
concrete spectrum and calibration value. -/
theorem C9_shared_statusvar_key_witness :
    restoreAcquiredData (persistSpectrumLogicVars (fun _ => none) [[1]] 5) =
      some (SVValue.num 5) :=
  (C9_shared_statusvar_key (fun _ => none) [[1]] 5).2.2.1
